import Mathlib

/-!
Verification development for the yc-scraper-app repository.

The repository drives a headless browser to scrape company data from a
listing site.  Two API routes share almost all of their logic:

* `src/app/api/scrape/route.ts`    (flat mode, modelled in `ScrapeRoute`)
* `src/app/api/scrape-qa/route.ts` (QA mode,   modelled in `ScrapeQARoute`)

Browser effects (navigation, DOM queries, timeouts) are external
collaborators; they are modelled by the data they return: the sequence of
link counts seen by the scroll loop, the list of anchor hrefs on the
listing page, and a per-item outcome (an extraction result, or the message
of a thrown exception).  Everything downstream of those inputs - link
filtering, deduplication, the scroll-loop control flow, the per-item
classification, the emitted event stream, and the number of times the
browser is opened and closed - is translated directly from the source.
-/

/-- JavaScript `hay.includes(needle)` on the character lists of the two
strings: some suffix of the haystack starts with the needle. -/
def listContainsSub (needle : List Char) : List Char → Bool
  | [] => needle.isEmpty
  | c :: cs => needle.isPrefixOf (c :: cs) || listContainsSub needle cs

/-- JavaScript `hay.includes(needle)` for strings. -/
def strIncludes (hay needle : String) : Bool :=
  listContainsSub needle.data hay.data

/-- JavaScript `hay.endsWith(suffix)` for strings. -/
def strEndsWith (hay suffix : String) : Bool :=
  suffix.data.isSuffixOf hay.data

/-- JavaScript `s.trim()`: strip leading and trailing whitespace. -/
def jsTrim (s : String) : String :=
  ⟨((s.data.dropWhile Char.isWhitespace).reverse.dropWhile Char.isWhitespace).reverse⟩

/-- Text of an optional DOM query result: JavaScript
`element?.textContent?.trim() || ""`; `none` stands for a missing element
(or a null `textContent`). -/
def textOf : Option String → String
  | none => ""
  | some s => jsTrim s

namespace ScrapeRoute

/-- Structure `CompanyData` from `src/app/api/scrape/route.ts` (lines 4-9). -/
structure CompanyData where
  name : String
  title : String
  description : String
  url : String
deriving DecidableEq, Repr

/-- The newline-delimited JSON events the route streams to the caller.
The constructors carry the payload fields written at each `enqueue` site:
`progress` (lines 189-195, 203-210), `company` (lines 284-288),
`companyError` (lines 295-300, 310-315), `complete` (lines 326-332) and
`fatalError` for the `type: "error"` messages (lines 180-184, 343-348). -/
inductive SEvent where
  | progress (message : String) (total current : Nat) (currentUrl : Option String)
  | company (data : CompanyData)
  | companyError (message : String) (url : String)
  | complete (message : String) (totalScraped totalFound : Nat)
  | fatalError (message : String) (details : Option String)
deriving DecidableEq, Repr

/-- The href filter of lines 156-168 (the same predicate is evaluated
inside the scroll loop at lines 116-128): keep an href iff it is truthy,
points into the companies directory, and matches none of the exclusion
patterns. -/
def keepLink (href : String) : Bool :=
  !href.isEmpty &&
  strIncludes href "ycombinator.com/companies/" &&
  !strEndsWith href "/companies" &&
  !strEndsWith href "/companies/" &&
  !strIncludes href "/companies?" &&
  !strIncludes href "/companies/founders" &&
  !strIncludes href "/companies/industry/" &&
  !strIncludes href "/companies/location/" &&
  !strIncludes href "/companies/batch/" &&
  !strIncludes href "#" &&
  !strIncludes href "/jobs"

/-- JavaScript `array.filter((url, index, array) => array.indexOf(url) === index)`
(line 171): keep each URL only at its first occurrence.  `seen` is the
set of URLs already kept. -/
def dedupFirst (seen : List String) : List String → List String
  | [] => []
  | x :: xs => if x ∈ seen then dedupFirst seen xs else x :: dedupFirst (x :: seen) xs

/-- The link extraction pass of lines 149-174, as a function of the anchor
hrefs present on the page: filter by `keepLink`, then deduplicate keeping
first occurrences. -/
def companyLinksOf (hrefs : List String) : List String :=
  dedupFirst [] (hrefs.filter keepLink)

/-- Constant `maxScrollAttempts` (line 96). -/
def maxScrollAttempts : Nat := 20

/-- The do/while scroll loop of lines 100-142, as a function of the link
count each evaluate call reports (`counts t` is the count observed after
the `t+1`-st scroll).  Arguments are the mutable variables
`currentCompanyCount` and `scrollAttempts`; the result is their final
values.  One iteration: save `prev`, scroll and re-count, increment the
attempt counter, break when the counter reaches the cap, otherwise loop
while the count grew. -/
def scrollLoopAux (counts : Nat → Nat) (cur attempts : Nat) : Nat × Nat :=
  let prev := cur
  let current := counts attempts
  let attemptsNext := attempts + 1
  if maxScrollAttempts ≤ attemptsNext then (current, attemptsNext)
  else if prev < current then scrollLoopAux counts current attemptsNext
  else (current, attemptsNext)
termination_by maxScrollAttempts - attempts
decreasing_by simp_wf; simp only [maxScrollAttempts] at *; omega

/-- The scroll loop started from `previousCompanyCount = 0`,
`currentCompanyCount = 0`, `scrollAttempts = 0` (lines 94-97). -/
def scrollLoop (counts : Nat → Nat) : Nat × Nat :=
  scrollLoopAux counts 0 0

/-- The whole discovery phase (lines 94-174) as a function of the page
snapshots: `snap t` is the list of anchor hrefs present after the
`t+1`-st scroll.  Returns the number of scroll attempts performed and the
final filtered, deduplicated link list (extracted from the page state
left by the last attempt). -/
def discover (snap : Nat → List String) : Nat × List String :=
  let r := scrollLoop fun t => (companyLinksOf (snap t)).length
  (r.2, companyLinksOf (snap (r.2 - 1)))

/-- Outcome of one per-item loop iteration body (lines 215-274), before
classification: either `page.evaluate` returned the extracted fields, or
some step of the iteration threw (navigation timeout, evaluate failure). -/
inductive ItemResult where
  | extracted (name title description : String)
  | failed (msg : String)
deriving DecidableEq, Repr

/-- Classification of one item outcome (lines 276-301 and the per-item
catch block, lines 306-318): a thrown exception becomes a
`company_error` event carrying the URL; an extraction with a truthy name
becomes a `company` event; an empty name becomes a `company_error`. -/
def classify (r : ItemResult) (url : String) : SEvent :=
  match r with
  | .failed msg => .companyError ("Error scraping company: " ++ msg) url
  | .extracted name title description =>
    if name ≠ "" then .company ⟨name, title, description, url⟩
    else .companyError ("Failed to extract data for company: " ++ url) url

/-- The single `company`-or-`company_error` event the loop body emits for
one URL, given the per-item outcomes. -/
def resolutionOf (item : String → ItemResult) (url : String) : SEvent :=
  classify (item url) url

/-- Events emitted by one iteration of the per-item loop (lines 200-319)
for the item at index `idx`: the progress update of lines 203-210, then
the resolution. -/
def itemEvents (item : String → ItemResult) (total idx : Nat) (url : String) :
    List SEvent :=
  SEvent.progress ("Scraping company " ++ toString (idx + 1) ++ "/" ++ toString total)
      total (idx + 1) (some url) ::
  [resolutionOf item url]

/-- Events emitted by the per-item loop from index `idx` on. -/
def loopEvents (item : String → ItemResult) (total idx : Nat) :
    List String → List SEvent
  | [] => []
  | u :: rest => itemEvents item total idx u ++ loopEvents item total (idx + 1) rest

/-- Number of items pushed onto `companies` (line 281): those whose
extraction succeeded with a truthy name. -/
def successCount (item : String → ItemResult) (links : List String) : Nat :=
  (links.filter fun u =>
    match item u with
    | .extracted n _ _ => n ≠ ""
    | .failed _ => false).length

/-- Abstract outcome of the browser effects during one request:
`launch = some msg` means launching the browser (or creating its context
or page, lines 72-80) threw with message `msg`; `discovery` is the result
of the listing navigation, scrolling and link extraction (lines 85-174),
either a thrown message or the discovered link list; `item` gives each
profile URL its per-item outcome. -/
structure Env where
  launch : Option String
  discovery : Except String (List String)
  item : String → ItemResult

/-- Observable result of one `scrapeCompanies` call: the streamed events,
how many times a browser session was opened (`chromium.launch`
succeeded, line 72) and how many times it was closed (`browser.close()`,
lines 321 and 335). -/
structure RunResult where
  events : List SEvent
  opens : Nat
  closes : Nat
deriving DecidableEq, Repr

/-- Function `scrapeCompanies` (lines 67-350).  Control flow of the source:

* launch failure: the outer catch (lines 339-349) emits the fatal
  `error` event; no session was opened, none closed;
* a throw during discovery: the inner catch (lines 334-337) closes the
  browser and rethrows, the outer catch emits the fatal `error` event;
* zero discovered links (lines 178-186): the fatal `error` event is
  emitted and the function returns - without passing `browser.close()`;
* otherwise: the initial progress event (lines 189-195), the per-item
  loop, `browser.close()` (line 321), the `complete` event. -/
def scrapeCompanies (env : Env) : RunResult :=
  match env.launch with
  | some msg =>
    { events := [.fatalError "Failed to scrape companies" (some msg)]
      opens := 0, closes := 0 }
  | none =>
    match env.discovery with
    | .error msg =>
      { events := [.fatalError "Failed to scrape companies" (some msg)]
        opens := 1, closes := 1 }
    | .ok companyLinks =>
      if companyLinks.length = 0 then
        { events := [.fatalError
            "No company links found. The page might not have loaded properly or the structure has changed."
            none]
          opens := 1, closes := 0 }
      else
        let scraped := successCount env.item companyLinks
        { events :=
            SEvent.progress
                ("Found " ++ toString companyLinks.length ++ " companies. Starting to scrape...")
                companyLinks.length 0 none ::
              loopEvents env.item companyLinks.length 0 companyLinks ++
              [.complete ("Successfully scraped " ++ toString scraped ++ " companies")
                scraped companyLinks.length]
          opens := 1, closes := 1 }

/-- Terminal events of the stream: `complete` and the fatal `error`. -/
def isTerminal : SEvent → Bool
  | .complete _ _ _ => true
  | .fatalError _ _ => true
  | _ => false

/-- Per-item resolutions: `company` and `company_error` events. -/
def isResolution : SEvent → Bool
  | .company _ => true
  | .companyError _ _ => true
  | _ => false

/-- Outcome of the `POST` handler (lines 11-65) before any browser work:
an early JSON error response, or the streaming response that runs
`scrapeCompanies`. -/
inductive PostOutcome where
  | jsonError (status : Nat) (error : String)
  | startStream (url : String)
deriving DecidableEq, Repr

/-- The `POST` handler decision logic (lines 11-53) as a function of the
parsed request body: `.error` means `request.json()` threw (caught at
lines 55-64, a 500 response); otherwise the optional `url` field is
validated (lines 15-28; a missing or empty `url` is falsy) before the
stream is started. -/
def POSTHandler (body : Except String (Option String)) : PostOutcome :=
  match body with
  | .error msg => .jsonError 500 ("Failed to parse request: " ++ msg)
  | .ok urlField =>
    match urlField with
    | none => .jsonError 400 "URL is required"
    | some url =>
      if url = "" then .jsonError 400 "URL is required"
      else if !strIncludes url "ycombinator.com/companies" then
        .jsonError 400 "Please provide a valid Y Combinator companies URL"
      else .startStream url

/-- Browser sessions opened while serving one request: sessions are only
opened inside `scrapeCompanies`, which runs only when the handler
returns the streaming response. -/
def sessionsOpened (body : Except String (Option String)) (env : Env) : Nat :=
  match POSTHandler body with
  | .jsonError _ _ => 0
  | .startStream _ => (scrapeCompanies env).opens

/-- Abstraction of the DOM state of one loaded profile page, by the text
each selector of the extraction pass (lines 232-274) resolves to:
`none` is a missing element.  `fallback1`/`fallback2`/`fallback3` are the
three description fallback selectors of lines 257-261, in source order. -/
structure FlatPageEval where
  nameText : Option String
  titleText : Option String
  descText : Option String
  fallback1 : Option String
  fallback2 : Option String
  fallback3 : Option String
deriving DecidableEq, Repr

/-- The description fallback loop (lines 263-270): take the first
candidate text that is longer than 50 characters and differs from both
the name and the title; otherwise leave the description empty. -/
def descFallbackLoop (name title : String) : List (Option String) → String
  | [] => ""
  | t :: rest =>
    let text := textOf t
    if decide (50 < text.length) && decide (text ≠ name) && decide (text ≠ title) then text
    else descFallbackLoop name title rest

/-- The candidate texts of the three fallback selectors, in their fixed
source order (lines 257-261). -/
def fallbackTexts (p : FlatPageEval) : List (Option String) :=
  [p.fallback1, p.fallback2, p.fallback3]

/-- The `page.evaluate` extraction pass of lines 232-274: trim the
primary name/title/description selector texts, and when the description
is empty run the fallback loop.  Returns (name, title, description). -/
def extractCompanyData (p : FlatPageEval) : String × String × String :=
  let name := textOf p.nameText
  let title := textOf p.titleText
  let description := textOf p.descText
  let description :=
    if description = "" then descFallbackLoop name title (fallbackTexts p)
    else description
  (name, title, description)

end ScrapeRoute

namespace ScrapeQARoute

/-- The href filter of `src/app/api/scrape-qa/route.ts`, lines 160-172
(also evaluated inside the scroll loop at lines 120-132). -/
def keepLink (href : String) : Bool :=
  !href.isEmpty &&
  strIncludes href "ycombinator.com/companies/" &&
  !strEndsWith href "/companies" &&
  !strEndsWith href "/companies/" &&
  !strIncludes href "/companies?" &&
  !strIncludes href "/companies/founders" &&
  !strIncludes href "/companies/industry/" &&
  !strIncludes href "/companies/location/" &&
  !strIncludes href "/companies/batch/" &&
  !strIncludes href "#" &&
  !strIncludes href "/jobs"

/-- First-occurrence deduplication (line 175 of the QA route). -/
def dedupFirst (seen : List String) : List String → List String
  | [] => []
  | x :: xs => if x ∈ seen then dedupFirst seen xs else x :: dedupFirst (x :: seen) xs

/-- The link extraction pass of the QA route (lines 153-178). -/
def companyLinksOf (hrefs : List String) : List String :=
  dedupFirst [] (hrefs.filter keepLink)

/-- Constant `maxScrollAttempts` of the QA route (line 100). -/
def maxScrollAttempts : Nat := 20

/-- The do/while scroll loop of the QA route (lines 104-146). -/
def scrollLoopAux (counts : Nat → Nat) (cur attempts : Nat) : Nat × Nat :=
  let prev := cur
  let current := counts attempts
  let attemptsNext := attempts + 1
  if maxScrollAttempts ≤ attemptsNext then (current, attemptsNext)
  else if prev < current then scrollLoopAux counts current attemptsNext
  else (current, attemptsNext)
termination_by maxScrollAttempts - attempts
decreasing_by simp_wf; simp only [maxScrollAttempts] at *; omega

/-- The QA route scroll loop started from its initial state
(lines 98-101). -/
def scrollLoop (counts : Nat → Nat) : Nat × Nat :=
  scrollLoopAux counts 0 0

/-- The whole discovery phase of the QA route (lines 98-178) as a
function of the page snapshots, as in `ScrapeRoute.discover`. -/
def discover (snap : Nat → List String) : Nat × List String :=
  let r := scrollLoop fun t => (companyLinksOf (snap t)).length
  (r.2, companyLinksOf (snap (r.2 - 1)))

/-- Structure `QAData` from the QA route (lines 4-7). -/
structure QAData where
  question : String
  answer : String
deriving DecidableEq, Repr

/-- The question-block loop of the QA extraction pass (lines 252-281), as
a function of the raw (question text, answer text) computed for each
question-bearing `div.mb-8` block: a block contributes a pair iff both
texts are truthy (line 277). -/
def qaListOf (rawPairs : List (String × String)) : List QAData :=
  (rawPairs.filter fun p => decide (p.1 ≠ "") && decide (p.2 ≠ "")).map
    fun p => ⟨p.1, p.2⟩

/-- The emission decision of lines 286-312: a `company` (QA record) event
is sent iff the extracted name is truthy and the QA list is non-empty;
otherwise a `company_error` event carrying the URL is sent. -/
def qaRecordEmitted (name : String) (rawPairs : List (String × String)) : Bool :=
  decide (name ≠ "") && decide (0 < (qaListOf rawPairs).length)

end ScrapeQARoute

/-- Spec-side description of first-occurrence deduplication: keep the
head, drop its later duplicates, recurse. -/
def dedupSpec : List String → List String
  | [] => []
  | x :: xs => x :: dedupSpec (xs.filter fun y => y ≠ x)
termination_by l => l.length
decreasing_by
  simp_wf
  have h := List.length_filter_le (fun y => !decide (y = x)) xs
  omega

/-- Value of the scroll-loop variable `currentCompanyCount` after `t`
attempts: `0` before the first attempt, and the count reported by attempt
`t` afterwards. -/
def countAfter (counts : Nat → Nat) : Nat → Nat
  | 0 => 0
  | t + 1 => counts t

/-- Spec-side acceptance predicate for a description fallback candidate:
trimmed text longer than 50 characters, different from both the name and
the title. -/
def qualifiesDesc (name title text : String) : Bool :=
  decide (50 < text.length) && decide (text ≠ name) && decide (text ≠ title)

/-! ### Helper lemmas about first-occurrence deduplication -/

theorem mem_dedupFirst (x : String) :
    ∀ (l seen : List String), x ∈ ScrapeRoute.dedupFirst seen l ↔ (x ∈ l ∧ x ∉ seen)
  | [], seen => by simp [ScrapeRoute.dedupFirst]
  | y :: ys, seen => by
    simp only [ScrapeRoute.dedupFirst]
    by_cases hy : y ∈ seen
    · rw [if_pos hy, mem_dedupFirst x ys seen]
      constructor
      · exact fun ⟨h1, h2⟩ => ⟨List.mem_cons_of_mem y h1, h2⟩
      · rintro ⟨h1, h2⟩
        rcases List.mem_cons.mp h1 with h | h
        · exact absurd (h ▸ hy) h2
        · exact ⟨h, h2⟩
    · rw [if_neg hy]
      simp only [List.mem_cons, mem_dedupFirst x ys (y :: seen)]
      constructor
      · rintro (rfl | ⟨h1, h2⟩)
        · exact ⟨Or.inl rfl, hy⟩
        · exact ⟨Or.inr h1, fun hs => h2 (Or.inr hs)⟩
      · rintro ⟨h1 | h1, h2⟩
        · exact Or.inl h1
        · by_cases hxy : x = y
          · exact Or.inl hxy
          · exact Or.inr ⟨h1, fun hs => hs.elim hxy h2⟩

theorem nodup_dedupFirst :
    ∀ (l seen : List String), (ScrapeRoute.dedupFirst seen l).Nodup
  | [], _ => List.nodup_nil
  | y :: ys, seen => by
    simp only [ScrapeRoute.dedupFirst]
    by_cases hy : y ∈ seen
    · rw [if_pos hy]; exact nodup_dedupFirst ys seen
    · rw [if_neg hy]
      refine List.nodup_cons.mpr ⟨?_, nodup_dedupFirst ys (y :: seen)⟩
      intro hmem
      exact ((mem_dedupFirst y ys (y :: seen)).mp hmem).2 (List.mem_cons_self y seen)

theorem sublist_dedupFirst :
    ∀ (l seen : List String), List.Sublist (ScrapeRoute.dedupFirst seen l) l
  | [], _ => List.Sublist.refl []
  | y :: ys, seen => by
    simp only [ScrapeRoute.dedupFirst]
    by_cases hy : y ∈ seen
    · rw [if_pos hy]; exact (sublist_dedupFirst ys seen).cons y
    · rw [if_neg hy]; exact (sublist_dedupFirst ys (y :: seen)).cons₂ y

theorem dedupFirst_eq_dedupSpec :
    ∀ (l seen : List String),
      ScrapeRoute.dedupFirst seen l = dedupSpec (l.filter fun y => y ∉ seen)
  | [], seen => by simp [ScrapeRoute.dedupFirst, dedupSpec]
  | y :: ys, seen => by
    simp only [ScrapeRoute.dedupFirst]
    by_cases hy : y ∈ seen
    · rw [if_pos hy, List.filter_cons_of_neg (by simp [hy]),
        dedupFirst_eq_dedupSpec ys seen]
    · rw [if_neg hy, List.filter_cons_of_pos (by simp [hy])]
      simp only [dedupSpec]
      congr 1
      rw [dedupFirst_eq_dedupSpec ys (y :: seen), List.filter_filter]
      congr 1
      apply List.filter_congr
      intro a _
      by_cases hay : a = y <;> by_cases has : a ∈ seen <;>
        simp [hay, has, List.mem_cons]

/-! ### Helper lemmas about the per-item loop events -/

theorem isResolution_resolutionOf (item : String → ScrapeRoute.ItemResult) (url : String) :
    ScrapeRoute.isResolution (ScrapeRoute.resolutionOf item url) = true := by
  unfold ScrapeRoute.resolutionOf ScrapeRoute.classify
  cases item url with
  | failed msg => rfl
  | extracted n t d =>
    by_cases h : n ≠ "" <;> simp [h, ScrapeRoute.isResolution]

theorem isTerminal_resolutionOf (item : String → ScrapeRoute.ItemResult) (url : String) :
    ScrapeRoute.isTerminal (ScrapeRoute.resolutionOf item url) = false := by
  unfold ScrapeRoute.resolutionOf ScrapeRoute.classify
  cases item url with
  | failed msg => rfl
  | extracted n t d =>
    by_cases h : n ≠ "" <;> simp [h, ScrapeRoute.isTerminal]

theorem loopEvents_filter_isResolution (item : String → ScrapeRoute.ItemResult)
    (total : Nat) :
    ∀ (links : List String) (idx : Nat),
      (ScrapeRoute.loopEvents item total idx links).filter ScrapeRoute.isResolution =
        links.map (ScrapeRoute.resolutionOf item)
  | [], _ => rfl
  | u :: rest, idx => by
    have hres := isResolution_resolutionOf item u
    have hprog : ScrapeRoute.isResolution
        (ScrapeRoute.SEvent.progress
          ("Scraping company " ++ toString (idx + 1) ++ "/" ++ toString total)
          total (idx + 1) (some u)) = false := rfl
    simp [ScrapeRoute.loopEvents, ScrapeRoute.itemEvents, List.filter_cons, hres, hprog,
      loopEvents_filter_isResolution item total rest (idx + 1)]

theorem loopEvents_no_terminal (item : String → ScrapeRoute.ItemResult) (total : Nat) :
    ∀ (links : List String) (idx : Nat) (e : ScrapeRoute.SEvent),
      e ∈ ScrapeRoute.loopEvents item total idx links →
        ScrapeRoute.isTerminal e = false
  | [], _, e => by simp [ScrapeRoute.loopEvents]
  | u :: rest, idx, e => by
    simp only [ScrapeRoute.loopEvents, ScrapeRoute.itemEvents, List.cons_append,
      List.singleton_append, List.mem_cons]
    rintro (rfl | rfl | hmem)
    · rfl
    · exact isTerminal_resolutionOf item u
    · exact loopEvents_no_terminal item total rest (idx + 1) e hmem

/-! ### Helper lemmas about the scroll loop -/

theorem scrollLoopAux_spec (counts : Nat → Nat) :
    ∀ (fuel a cur : Nat), 20 - a ≤ fuel → a < 20 → cur = countAfter counts a →
      a + 1 ≤ (ScrapeRoute.scrollLoopAux counts cur a).2 ∧
      (ScrapeRoute.scrollLoopAux counts cur a).2 ≤ 20 ∧
      (ScrapeRoute.scrollLoopAux counts cur a).1 =
        counts ((ScrapeRoute.scrollLoopAux counts cur a).2 - 1) ∧
      (∀ t, a < t → t < (ScrapeRoute.scrollLoopAux counts cur a).2 →
        countAfter counts (t - 1) < countAfter counts t) ∧
      ((ScrapeRoute.scrollLoopAux counts cur a).2 < 20 →
        ¬ countAfter counts ((ScrapeRoute.scrollLoopAux counts cur a).2 - 1) <
          countAfter counts (ScrapeRoute.scrollLoopAux counts cur a).2)
  | 0, a, cur => by omega
  | fuel + 1, a, cur => by
    intro hfuel ha hcur
    rw [ScrapeRoute.scrollLoopAux]
    simp only [ScrapeRoute.maxScrollAttempts]
    by_cases h1 : 20 ≤ a + 1
    · rw [if_pos h1]
      have ha19 : a = 19 := by omega
      refine ⟨le_refl _, by omega, by simp, fun t ht1 ht2 => by omega, by omega⟩
    · rw [if_neg h1]
      by_cases h2 : cur < counts a
      · rw [if_pos h2]
        have ih := scrollLoopAux_spec counts fuel (a + 1) (counts a)
          (by omega) (by omega) rfl
        refine ⟨by omega, ih.2.1, ih.2.2.1, ?_, ih.2.2.2.2⟩
        intro t ht1 ht2
        by_cases hta : t = a + 1
        · subst hta
          simpa [countAfter, hcur] using h2
        · exact ih.2.2.2.1 t (by omega) ht2
      · rw [if_neg h2]
        refine ⟨le_refl _, by omega, by simp, fun t ht1 ht2 => by omega, ?_⟩
        intro _
        simpa [countAfter, hcur] using h2

/-! ### Helper lemmas relating the two routes -/

theorem qa_keepLink_eq : ScrapeQARoute.keepLink = ScrapeRoute.keepLink := rfl

theorem qa_dedupFirst_eq :
    ∀ (l seen : List String),
      ScrapeQARoute.dedupFirst seen l = ScrapeRoute.dedupFirst seen l
  | [], _ => rfl
  | x :: xs, seen => by
    simp only [ScrapeQARoute.dedupFirst, ScrapeRoute.dedupFirst]
    by_cases h : x ∈ seen
    · rw [if_pos h, if_pos h, qa_dedupFirst_eq xs seen]
    · rw [if_neg h, if_neg h, qa_dedupFirst_eq xs (x :: seen)]

theorem qa_companyLinksOf_eq (hrefs : List String) :
    ScrapeQARoute.companyLinksOf hrefs = ScrapeRoute.companyLinksOf hrefs := by
  unfold ScrapeQARoute.companyLinksOf ScrapeRoute.companyLinksOf
  rw [qa_keepLink_eq, qa_dedupFirst_eq]

theorem qa_scrollLoopAux_eq (counts : Nat → Nat) :
    ∀ (fuel a cur : Nat), 20 - a ≤ fuel →
      ScrapeQARoute.scrollLoopAux counts cur a = ScrapeRoute.scrollLoopAux counts cur a
  | 0, a, cur => by
    intro hfuel
    rw [ScrapeQARoute.scrollLoopAux, ScrapeRoute.scrollLoopAux]
    simp only [ScrapeQARoute.maxScrollAttempts, ScrapeRoute.maxScrollAttempts]
    rw [if_pos (by omega), if_pos (by omega)]
  | fuel + 1, a, cur => by
    intro hfuel
    rw [ScrapeQARoute.scrollLoopAux, ScrapeRoute.scrollLoopAux]
    simp only [ScrapeQARoute.maxScrollAttempts, ScrapeRoute.maxScrollAttempts]
    by_cases h1 : 20 ≤ a + 1
    · rw [if_pos h1, if_pos h1]
    · rw [if_neg h1, if_neg h1]
      by_cases h2 : cur < counts a
      · rw [if_pos h2, if_pos h2, qa_scrollLoopAux_eq counts fuel (a + 1) (counts a) (by omega)]
      · rw [if_neg h2, if_neg h2]

theorem qa_scrollLoop_eq (counts : Nat → Nat) :
    ScrapeQARoute.scrollLoop counts = ScrapeRoute.scrollLoop counts := by
  unfold ScrapeQARoute.scrollLoop ScrapeRoute.scrollLoop
  exact qa_scrollLoopAux_eq counts 20 0 0 (by omega)

theorem qa_discover_eq (snap : Nat → List String) :
    ScrapeQARoute.discover snap = ScrapeRoute.discover snap := by
  unfold ScrapeQARoute.discover ScrapeRoute.discover
  simp only [qa_companyLinksOf_eq, qa_scrollLoop_eq]

/-! ### Helper lemma for the description fallback chain -/

theorem descFallbackLoop_eq_find (name title : String) :
    ∀ l : List (Option String),
      ScrapeRoute.descFallbackLoop name title l =
        ((l.map textOf).find? (qualifiesDesc name title)).getD ""
  | [] => rfl
  | t :: rest => by
    simp only [ScrapeRoute.descFallbackLoop, List.map_cons, List.find?_cons]
    cases hq : qualifiesDesc name title (textOf t) with
    | true =>
      rw [show (decide (50 < (textOf t).length) && decide (textOf t ≠ name) &&
        decide (textOf t ≠ title)) = qualifiesDesc name title (textOf t) from rfl, hq]
      rfl
    | false =>
      rw [show (decide (50 < (textOf t).length) && decide (textOf t ≠ name) &&
        decide (textOf t ≠ title)) = qualifiesDesc name title (textOf t) from rfl, hq]
      simpa using descFallbackLoop_eq_find name title rest

/-! ### Example inputs used by witnesses -/

/-- Example request environment: the browser opens, discovery yields two
links, the first item throws and the second extracts a named company. -/
def exampleEnv : ScrapeRoute.Env where
  launch := none
  discovery := .ok ["u1", "u2"]
  item := fun u => if u = "u1" then .failed "boom" else .extracted "Acme" "tag" "desc"

/-- Example anchor hrefs of a listing page: one company link repeated
twice, plus a filtered-listing URL the filter must drop. -/
def exampleHrefs : List String :=
  ["https://ycombinator.com/companies/acme",
   "https://ycombinator.com/companies/acme",
   "https://ycombinator.com/companies?batch=x"]

/-- Example profile page for the description fallback: the primary
description selector is missing and the first fallback selector carries a
60-character text. -/
def examplePage : ScrapeRoute.FlatPageEval where
  nameText := some "Acme"
  titleText := some "Tag"
  descText := none
  fallback1 := some "AAAAAAAAAAAAAAAAAAAAAAAAAAAAAAAAAAAAAAAAAAAAAAAAAAAAAAAAAAAA"
  fallback2 := none
  fallback3 := none

/-! ### Claims -/

/-- C1: the claim says the browser session is closed exactly once on every
exit path of the scrape function, including discovery yielding zero links.
Evaluating the code on the zero-links path: the session is opened but
never closed, because the early return at lines 178-186 of
`src/app/api/scrape/route.ts` skips `browser.close()`. -/
theorem c1_session_leak_on_zero_links :
    (ScrapeRoute.scrapeCompanies
      { launch := none, discovery := .ok [], item := fun _ => .failed "unused" }).opens = 1 ∧
    (ScrapeRoute.scrapeCompanies
      { launch := none, discovery := .ok [], item := fun _ => .failed "unused" }).closes = 0 :=
  ⟨rfl, rfl⟩

/-- C2: for every request environment, the emitted event stream is zero or
more non-terminal (progress/record/record-error) events followed by
exactly one terminal event (`complete` or the fatal `error`). -/
theorem c2_exactly_one_terminal_event (env : ScrapeRoute.Env) :
    ∃ pre last, (ScrapeRoute.scrapeCompanies env).events = pre ++ [last] ∧
      ScrapeRoute.isTerminal last = true ∧
      ∀ e ∈ pre, ScrapeRoute.isTerminal e = false := by
  obtain ⟨launch, discovery, item⟩ := env
  cases launch with
  | some msg => exact ⟨[], _, rfl, rfl, by simp⟩
  | none =>
    cases discovery with
    | error msg => exact ⟨[], _, rfl, rfl, by simp⟩
    | ok links =>
      by_cases hlen : links.length = 0
      · refine ⟨[], ScrapeRoute.SEvent.fatalError
          "No company links found. The page might not have loaded properly or the structure has changed."
          none, ?_, rfl, by simp⟩
        simp [ScrapeRoute.scrapeCompanies, hlen]
      · refine ⟨ScrapeRoute.SEvent.progress
          ("Found " ++ toString links.length ++ " companies. Starting to scrape...")
          links.length 0 none ::
          ScrapeRoute.loopEvents item links.length 0 links,
          ScrapeRoute.SEvent.complete
            ("Successfully scraped " ++
              toString (ScrapeRoute.successCount item links) ++ " companies")
            (ScrapeRoute.successCount item links) links.length, ?_, ?_, ?_⟩
        · simp [ScrapeRoute.scrapeCompanies, hlen]
        · rfl
        · intro e he
          rcases List.mem_cons.mp he with rfl | hmem
          · rfl
          · exact loopEvents_no_terminal item links.length links 0 e hmem

/-- Witness for C2: the terminal-event shape evaluated on a concrete
environment. -/
theorem c2_exactly_one_terminal_event_witness :
    ∃ pre last, (ScrapeRoute.scrapeCompanies exampleEnv).events = pre ++ [last] ∧
      ScrapeRoute.isTerminal last = true ∧
      ∀ e ∈ pre, ScrapeRoute.isTerminal e = false :=
  c2_exactly_one_terminal_event exampleEnv

/-- C3: for every discovered list of links, the per-item loop produces
exactly one resolution (`company` or `company_error`) per link, in order;
an item whose iteration throws resolves to a `company_error` event
carrying that item's URL and a message, and every later item is still
processed. -/
theorem c3_per_item_failure_isolation (env : ScrapeRoute.Env) (links : List String)
    (hlaunch : env.launch = none) (hdisc : env.discovery = .ok links)
    (hne : links ≠ []) :
    ((ScrapeRoute.scrapeCompanies env).events.filter ScrapeRoute.isResolution =
      links.map (ScrapeRoute.resolutionOf env.item)) ∧
    ∀ url msg, env.item url = .failed msg →
      ScrapeRoute.resolutionOf env.item url =
        ScrapeRoute.SEvent.companyError ("Error scraping company: " ++ msg) url := by
  obtain ⟨launch, discovery, item⟩ := env
  dsimp only at hlaunch hdisc ⊢
  subst hlaunch
  subst hdisc
  constructor
  · have hlen : ¬ links.length = 0 := by
      simpa [List.length_eq_zero] using hne
    have hprog : ScrapeRoute.isResolution (ScrapeRoute.SEvent.progress
      ("Found " ++ toString links.length ++ " companies. Starting to scrape...")
      links.length 0 none) = false := rfl
    have hcomp : ∀ m a b,
        ScrapeRoute.isResolution (ScrapeRoute.SEvent.complete m a b) = false :=
      fun _ _ _ => rfl
    simp [ScrapeRoute.scrapeCompanies, hlen, List.filter_cons, List.filter_append,
      hprog, hcomp, loopEvents_filter_isResolution]
  · intro url msg h
    simp [ScrapeRoute.resolutionOf, ScrapeRoute.classify, h]

/-- Witness for C3: on the concrete environment, the resolutions equal the
per-link map, and the failing first item resolves to its record error. -/
theorem c3_per_item_failure_isolation_witness :
    ((ScrapeRoute.scrapeCompanies exampleEnv).events.filter ScrapeRoute.isResolution =
      (["u1", "u2"]).map (ScrapeRoute.resolutionOf exampleEnv.item)) ∧
    ScrapeRoute.resolutionOf exampleEnv.item "u1" =
      ScrapeRoute.SEvent.companyError ("Error scraping company: " ++ "boom") "u1" := by
  have h := c3_per_item_failure_isolation exampleEnv ["u1", "u2"] rfl rfl (by decide)
  exact ⟨h.1, h.2 "u1" "boom" (by decide)⟩

/-- C4 counterexample: the claim says a QA record is emitted iff the
extracted pair list has a pair that is non-empty on both sides; on a page
whose extracted name is empty but which has such a pair, no record is
emitted, so the stated equivalence is false. -/
theorem c4_qa_emission_counterexample :
    ¬ (ScrapeQARoute.qaRecordEmitted "" [("Q", "A")] = true ↔
        ∃ p ∈ ([("Q", "A")] : List (String × String)), p.1 ≠ "" ∧ p.2 ≠ "") := by
  decide

/-- C4 (amended): a QA record event is emitted iff the extracted name is
non-empty AND the extracted question/answer list contains at least one
pair whose question and answer are both non-empty. -/
theorem c4_qa_emission_iff (name : String) (rawPairs : List (String × String)) :
    ScrapeQARoute.qaRecordEmitted name rawPairs = true ↔
      (name ≠ "" ∧ ∃ p ∈ rawPairs, p.1 ≠ "" ∧ p.2 ≠ "") := by
  simp [ScrapeQARoute.qaRecordEmitted, ScrapeQARoute.qaListOf,
    List.length_pos_iff_exists_mem, List.mem_filter]

/-- Witness for C4 (amended): a page with a non-empty name and one fully
non-empty pair does emit a QA record. -/
theorem c4_qa_emission_iff_witness :
    ScrapeQARoute.qaRecordEmitted "Acme" [("Q", "A")] = true :=
  (c4_qa_emission_iff "Acme" [("Q", "A")]).mpr (by decide)

/-- C5: the scroll loop always performs between 1 and 20 attempts, returns
the count of its last attempt, runs past an attempt only when the count
grew, stops early only when the count did not grow, and on a page whose
count grows on every attempt performs exactly 20 attempts. -/
theorem c5_scroll_loop_termination (counts : Nat → Nat) :
    1 ≤ (ScrapeRoute.scrollLoop counts).2 ∧
    (ScrapeRoute.scrollLoop counts).2 ≤ 20 ∧
    (ScrapeRoute.scrollLoop counts).1 = counts ((ScrapeRoute.scrollLoop counts).2 - 1) ∧
    (∀ t, 0 < t → t < (ScrapeRoute.scrollLoop counts).2 →
      countAfter counts (t - 1) < countAfter counts t) ∧
    ((ScrapeRoute.scrollLoop counts).2 < 20 →
      ¬ countAfter counts ((ScrapeRoute.scrollLoop counts).2 - 1) <
        countAfter counts (ScrapeRoute.scrollLoop counts).2) ∧
    ((∀ t, countAfter counts t < countAfter counts (t + 1)) →
      (ScrapeRoute.scrollLoop counts).2 = 20) := by
  simp only [ScrapeRoute.scrollLoop]
  have h := scrollLoopAux_spec counts 20 0 0 (by omega) (by omega) rfl
  refine ⟨h.1, h.2.1, h.2.2.1, fun t ht1 ht2 => h.2.2.2.1 t ht1 ht2, h.2.2.2.2, ?_⟩
  intro hgrow
  rcases Nat.lt_or_ge (ScrapeRoute.scrollLoopAux counts 0 0).2 20 with hlt | hge
  · exfalso
    have hstop := h.2.2.2.2 hlt
    have hg := hgrow ((ScrapeRoute.scrollLoopAux counts 0 0).2 - 1)
    rw [Nat.sub_add_cancel h.1] at hg
    exact hstop hg
  · omega

/-- Witness for C5: on a page whose link count grows at every attempt, the
loop performs exactly 20 attempts. -/
theorem c5_scroll_loop_termination_witness :
    (ScrapeRoute.scrollLoop fun t => t + 1).2 = 20 :=
  (c5_scroll_loop_termination fun t => t + 1).2.2.2.2.2 (fun t => by
    cases t <;> simp [countAfter])

/-- C6: for every list of anchor hrefs, the discovered link list has no
duplicates, equals the first-occurrence deduplication of the filtered
hrefs (first-seen order preserved), contains a URL iff it occurs in the
hrefs and passes the filter, and contains no URL matching any exclusion
pattern. -/
theorem c6_discovered_links_clean (hrefs : List String) :
    (ScrapeRoute.companyLinksOf hrefs).Nodup ∧
    ScrapeRoute.companyLinksOf hrefs = dedupSpec (hrefs.filter ScrapeRoute.keepLink) ∧
    (∀ u, u ∈ ScrapeRoute.companyLinksOf hrefs ↔
      (u ∈ hrefs ∧ ScrapeRoute.keepLink u = true)) ∧
    ∀ u ∈ ScrapeRoute.companyLinksOf hrefs,
      strEndsWith u "/companies" = false ∧ strEndsWith u "/companies/" = false ∧
      strIncludes u "/companies?" = false ∧
      strIncludes u "/companies/founders" = false ∧
      strIncludes u "/companies/industry/" = false ∧
      strIncludes u "/companies/location/" = false ∧
      strIncludes u "/companies/batch/" = false ∧ strIncludes u "#" = false ∧
      strIncludes u "/jobs" = false := by
  refine ⟨nodup_dedupFirst _ [], ?_, ?_, ?_⟩
  · rw [ScrapeRoute.companyLinksOf, dedupFirst_eq_dedupSpec,
      List.filter_eq_self.mpr (fun a _ => by simp)]
  · intro u
    rw [ScrapeRoute.companyLinksOf, mem_dedupFirst]
    simp [List.mem_filter]
  · intro u hu
    have hk : ScrapeRoute.keepLink u = true :=
      (List.mem_filter.mp ((mem_dedupFirst u _ []).mp hu).1).2
    simp only [ScrapeRoute.keepLink, Bool.and_eq_true, Bool.not_eq_true'] at hk
    tauto

/-- Witness for C6: on the example hrefs, the repeated company link is
kept (once) and the filtered-listing URL is excluded. -/
theorem c6_discovered_links_clean_witness :
    "https://ycombinator.com/companies/acme" ∈ ScrapeRoute.companyLinksOf exampleHrefs ∧
    ScrapeRoute.companyLinksOf exampleHrefs = ["https://ycombinator.com/companies/acme"] := by
  constructor
  · exact ((c6_discovered_links_clean exampleHrefs).2.2.1 _).mpr ⟨by decide, by decide⟩
  · decide

/-- C7: in flat mode, for an item whose extraction pass returned, a
`company` (profile record) event is emitted iff the extracted name is
non-empty; with an empty name a `company_error` event carrying the page
URL is emitted instead. -/
theorem c7_flat_record_iff_name (name title description url : String) :
    ((∃ c, ScrapeRoute.classify (.extracted name title description) url =
      ScrapeRoute.SEvent.company c) ↔ name ≠ "") ∧
    (name = "" →
      ScrapeRoute.classify (.extracted name title description) url =
        ScrapeRoute.SEvent.companyError
          ("Failed to extract data for company: " ++ url) url) ∧
    (name ≠ "" →
      ScrapeRoute.classify (.extracted name title description) url =
        ScrapeRoute.SEvent.company ⟨name, title, description, url⟩) := by
  by_cases h : name = "" <;> simp [ScrapeRoute.classify, h]

/-- Witness for C7: a named extraction emits a record; a nameless one
emits a record error carrying the URL. -/
theorem c7_flat_record_iff_name_witness :
    ScrapeRoute.classify (.extracted "Acme" "t" "d") "u" =
      ScrapeRoute.SEvent.company ⟨"Acme", "t", "d", "u"⟩ ∧
    ScrapeRoute.classify (.extracted "" "t" "d") "u" =
      ScrapeRoute.SEvent.companyError ("Failed to extract data for company: " ++ "u") "u" :=
  ⟨(c7_flat_record_iff_name "Acme" "t" "d" "u").2.2 (by decide),
   (c7_flat_record_iff_name "" "t" "d" "u").2.1 rfl⟩

/-- C8: a request with a missing URL is rejected with status 400 and the
body error "URL is required"; a request whose URL lacks the required
host/path substring is rejected with status 400; in both cases no browser
session is opened. -/
theorem c8_request_validation (body : Except String (Option String))
    (env : ScrapeRoute.Env) :
    (body = .ok none →
      ScrapeRoute.POSTHandler body = .jsonError 400 "URL is required" ∧
      ScrapeRoute.sessionsOpened body env = 0) ∧
    ∀ url, body = .ok (some url) →
      strIncludes url "ycombinator.com/companies" = false →
        (∃ msg, ScrapeRoute.POSTHandler body = .jsonError 400 msg) ∧
        ScrapeRoute.sessionsOpened body env = 0 := by
  constructor
  · rintro rfl
    exact ⟨rfl, rfl⟩
  · rintro url rfl hsub
    by_cases hempty : url = ""
    · subst hempty
      exact ⟨⟨"URL is required", rfl⟩, rfl⟩
    · refine ⟨⟨"Please provide a valid Y Combinator companies URL", ?_⟩, ?_⟩
      · simp [ScrapeRoute.POSTHandler, hempty, hsub]
      · simp [ScrapeRoute.sessionsOpened, ScrapeRoute.POSTHandler, hempty, hsub]

/-- Witness for C8: a missing URL and a non-matching URL are both
rejected with status 400, with zero sessions opened. -/
theorem c8_request_validation_witness :
    (ScrapeRoute.POSTHandler (.ok none) = .jsonError 400 "URL is required" ∧
      ScrapeRoute.sessionsOpened (.ok none) exampleEnv = 0) ∧
    (∃ msg, ScrapeRoute.POSTHandler (.ok (some "https://example.com/foo")) =
      .jsonError 400 msg) ∧
    ScrapeRoute.sessionsOpened (.ok (some "https://example.com/foo")) exampleEnv = 0 :=
  ⟨(c8_request_validation (.ok none) exampleEnv).1 rfl,
   (c8_request_validation (.ok (some "https://example.com/foo")) exampleEnv).2
     "https://example.com/foo" rfl (by decide)⟩

/-- C9: in flat mode, when the primary description selector yields an
empty string, the final description is the first fallback candidate (in
fixed selector order) whose trimmed text is longer than 50 characters and
differs from both the extracted name and tagline, and stays empty when no
candidate qualifies. -/
theorem c9_description_fallback_policy (p : ScrapeRoute.FlatPageEval)
    (hdesc : textOf p.descText = "") :
    (ScrapeRoute.extractCompanyData p).2.2 =
      (((ScrapeRoute.fallbackTexts p).map textOf).find?
        (qualifiesDesc (textOf p.nameText) (textOf p.titleText))).getD "" := by
  simp [ScrapeRoute.extractCompanyData, hdesc, descFallbackLoop_eq_find]

/-- Witness for C9: on the example page the first fallback candidate
qualifies and becomes the description. -/
theorem c9_description_fallback_policy_witness :
    (ScrapeRoute.extractCompanyData examplePage).2.2 =
      "AAAAAAAAAAAAAAAAAAAAAAAAAAAAAAAAAAAAAAAAAAAAAAAAAAAAAAAAAAAA" :=
  (c9_description_fallback_policy examplePage rfl).trans (by decide)

/-- C10: the link-discovery computations of the flat route and the QA
route are extensionally equal: same scroll-loop result on every count
sequence, same filtered deduplicated link list on every href list, and
same end-to-end discovery outcome on every snapshot sequence. -/
theorem c10_discovery_routes_equivalent :
    (∀ counts : Nat → Nat,
      ScrapeQARoute.scrollLoop counts = ScrapeRoute.scrollLoop counts) ∧
    (∀ hrefs : List String,
      ScrapeQARoute.companyLinksOf hrefs = ScrapeRoute.companyLinksOf hrefs) ∧
    ∀ snap : Nat → List String,
      ScrapeQARoute.discover snap = ScrapeRoute.discover snap :=
  ⟨qa_scrollLoop_eq, qa_companyLinksOf_eq, qa_discover_eq⟩

/-- Witness for C10: the two routes discover the same links from the
example snapshots. -/
theorem c10_discovery_routes_equivalent_witness :
    ScrapeQARoute.discover (fun _ => exampleHrefs) =
      ScrapeRoute.discover (fun _ => exampleHrefs) :=
  c10_discovery_routes_equivalent.2.2 fun _ => exampleHrefs
